import Mathlib

/-!
Shallow embedding of the LLM-Transceiver example repository
(src/server.py, src/client.py, src/main.py).

Conventions of the embedding:
* Bytes are natural numbers; byte strings are lists of naturals.
* All control frames exchanged by the protocol are flat JSON objects
  whose field values are strings; they are represented as association
  lists of string pairs (a faithful restriction: every frame the
  protocol produces or inspects has only string-valued fields).
* An inbound wire message that is not valid JSON is represented by the
  constructor WireMsg.malformed; json.loads raises on it.
* Python exceptions are modelled with Except; an except-Exception
  handler corresponds to matching away the error constructor.
* The filesystem is an association list from paths to byte strings in
  which the most recent write shadows earlier ones, matching the
  full-overwrite semantics of open(path, "wb").write(data).
-/

namespace Transceiver

/-- A flat JSON object with string fields, as produced by json.dumps on
the protocol's control messages and consumed via dict.get. -/
structure JsonObj where
  fields : List (String × String)
deriving DecidableEq, Repr

/-- Python dict.get(key): the value of the first binding of key, if any. -/
def JsonObj.get (j : JsonObj) (k : String) : Option String :=
  j.fields.lookup k

/-- Python dict.get(key, default): the value bound to key, or the default
when the key is absent. -/
def JsonObj.getD (j : JsonObj) (k d : String) : String :=
  (j.get k).getD d

/-- The result of receiving one text wire message: either a parseable flat
JSON object, or a string on which json.loads raises. -/
inductive WireMsg where
  | json (j : JsonObj)
  | malformed
deriving DecidableEq, Repr

/-- Exceptions that the embedded code can raise. -/
inductive PyErr where
  | jsonError
  | typeError
  | b64Error
  | connectionClosed
  | httpError
deriving DecidableEq, Repr

/-- The index of a 6-bit value in the standard base64 alphabet. -/
def b64alphabet : List Char :=
  "ABCDEFGHIJKLMNOPQRSTUVWXYZabcdefghijklmnopqrstuvwxyz0123456789+/".toList

/-- One base64 output character for a 6-bit value. -/
def b64char (n : Nat) : Char := b64alphabet.getD n 'A'

/-- base64.b64encode on a byte string, as a list of characters. -/
def b64encodeChars : List Nat → List Char
  | [] => []
  | [a] => [b64char (a / 4), b64char (a % 4 * 16), '=', '=']
  | [a, b] => [b64char (a / 4), b64char (a % 4 * 16 + b / 16),
      b64char (b % 16 * 4), '=']
  | a :: b :: c :: rest =>
      b64char (a / 4) :: b64char (a % 4 * 16 + b / 16) ::
      b64char (b % 16 * 4 + c / 64) :: b64char (c % 64) ::
      b64encodeChars rest

/-- base64.b64encode followed by decode("utf-8"): the base64 text of a
byte string. -/
def b64encode (bs : List Nat) : String :=
  String.mk (b64encodeChars bs)

/-- The 6-bit value of a base64 alphabet character, if it is one. -/
def b64value (c : Char) : Option Nat :=
  b64alphabet.indexOf? c

/-- base64.b64decode on the character list of a base64 text: groups of
four alphabet characters decode to three bytes, with '=' padding closing
the final group; anything else raises. -/
def b64decodeChars : List Char → Except PyErr (List Nat)
  | [] => .ok []
  | w :: x :: y :: z :: rest =>
    match b64value w, b64value x with
    | some p, some q =>
      if y = '=' ∧ z = '=' ∧ rest = [] then
        .ok [p * 4 + q / 16]
      else
        match b64value y with
        | some r =>
          if z = '=' ∧ rest = [] then
            .ok [p * 4 + q / 16, q % 16 * 16 + r / 4]
          else
            match b64value z with
            | some t => do
              let tail ← b64decodeChars rest
              return (p * 4 + q / 16) :: (q % 16 * 16 + r / 4) ::
                (r % 4 * 64 + t) :: tail
            | none => .error .b64Error
        | none => .error .b64Error
    | _, _ => .error .b64Error
  | _ => .error .b64Error

/-- base64.b64decode on a base64 string. -/
def b64decode (s : String) : Except PyErr (List Nat) :=
  b64decodeChars s.toList

/-- os.path.basename: the final path component, i.e. the characters
after the last slash. -/
def basename (path : String) : String :=
  String.mk ((path.toList.reverse.takeWhile (fun c => c ≠ '/')).reverse)

/-- os.path.join for the two-argument uses in the client: directory,
separator, then file name. -/
def pathJoin (dir name : String) : String :=
  dir ++ "/" ++ name

/-! ## Server (src/server.py) -/

/-- One message arriving on the data channel: a text frame (already run
through json.loads, which may raise) or raw binary bytes. -/
inductive DCMessage where
  | text (w : WireMsg)
  | binary (b : List Nat)
deriving DecidableEq, Repr

/-- One frame the server sends back on its data channel. -/
inductive OutFrame where
  | text (j : JsonObj)
deriving DecidableEq, Repr

/-- The filesystem visible to the server: paths mapped to the byte
strings last written there; a later write shadows an earlier one. -/
def Fs := List (String × List Nat)

/-- The content currently stored at a path. -/
def Fs.read (fs : Fs) (p : String) : Option (List Nat) :=
  List.lookup p fs

/-- Python's open(path, "wb").write(data): full overwrite of the file
at path. -/
def Fs.write (fs : Fs) (p : String) (data : List Nat) : Fs :=
  (p, data) :: fs

/-- The mutable state of one Server instance (src/server.py:24-42),
together with the files it has written.  data_channel is the readyState
of the channel when one has been received, none before that.  connected
is the asyncio.Event of the same name (set or not); pcClosed records
that pc.close() has run. -/
structure ServerState where
  received_file_path : String
  file_buffer : List Nat
  receiving_file : Bool
  data_channel : Option String
  connected : Bool
  pcClosed : Bool
  fs : Fs

/-- The state right after Server.__init__. -/
def initServer : ServerState :=
  { received_file_path := "server_received_file.bin"
    file_buffer := []
    receiving_file := false
    data_channel := none
    connected := false
    pcClosed := false
    fs := [] }

/-- Server.process_text_with_llm (src/server.py:208-221). -/
def process_text_with_llm (text : String) : String :=
  "LLM response to: " ++ text

/-- Server.process_file_with_llm (src/server.py:223-236). -/
def process_file_with_llm (file_path : String) : String :=
  "LLM processed file: " ++ file_path

/-- The observable output of a server step: frames sent on the data
channel and warnings logged. -/
structure ServerOut where
  frames : List OutFrame
  warnings : List String
deriving DecidableEq, Repr

/-- Server.send_text (src/server.py:182-192): when a data channel exists
and its readyState is "open", send one text frame carrying the JSON
object with fields type="text" and data=message; otherwise log a
warning and do nothing. -/
def send_text (s : ServerState) (message : String) : ServerOut :=
  if s.data_channel = some "open" then
    { frames := [.text ⟨[("type", "text"), ("data", message)]⟩]
      warnings := [] }
  else
    { frames := [], warnings := ["Data channel is not open"] }

/-- Server.handle_datachannel_message (src/server.py:59-89).  A text
frame is parsed by json.loads (raising on a malformed frame) and
dispatched on its type field: "text" answers through the LLM
placeholder and send_text; "file_start" resets the reception context
from the frame's filename field (default "server_received_file.bin");
"file_end" writes the whole buffer to the target path, clears
receiving_file and sends the LLM's file response.  A binary frame is
appended to the buffer while receiving_file is set and otherwise
dropped with a warning. -/
def handle_datachannel_message (s : ServerState) (m : DCMessage) :
    Except PyErr (ServerState × ServerOut) :=
  match m with
  | .text .malformed => .error .jsonError
  | .text (.json j) =>
    if j.get "type" = some "text" then
      let response_text := process_text_with_llm ((j.get "data").getD "None")
      .ok (s, send_text s response_text)
    else if j.get "type" = some "file_start" then
      .ok ({ s with
              received_file_path := j.getD "filename" "server_received_file.bin"
              file_buffer := []
              receiving_file := true },
           { frames := [], warnings := [] })
    else if j.get "type" = some "file_end" then
      let s1 := { s with
                    fs := s.fs.write s.received_file_path s.file_buffer
                    receiving_file := false }
      .ok (s1, send_text s1 (process_file_with_llm s1.received_file_path))
    else
      .ok (s, { frames := [], warnings := [] })
  | .binary b =>
    if s.receiving_file then
      .ok ({ s with file_buffer := s.file_buffer ++ b },
           { frames := [], warnings := [] })
    else
      .ok (s, { frames := [],
                warnings := ["Received binary data but not in file reception mode"] })

/-- The state reached after one data-channel message.  An exception in
the handling task leaves the state as it was at the raise point;
json.loads is the handler's first statement, so a raising message
changes nothing. -/
def handleState (s : ServerState) (m : DCMessage) : ServerState :=
  match handle_datachannel_message s m with
  | .ok (s1, _) => s1
  | .error _ => s

/-- The state after a sequence of data-channel messages handled in
arrival order. -/
def runMessages (s : ServerState) (ms : List DCMessage) : ServerState :=
  ms.foldl handleState s

/-- The file_end control frame. -/
def fileEndMsg : DCMessage := .text (.json ⟨[("type", "file_end")]⟩)

/-- Server.on_ice_connection_state_change (src/server.py:44-50): on
"connected" the connected event is set; on "failed" pc.close() runs
(closing any data channel riding on it) and the connected event is
cleared; every other state only logs. -/
def on_ice_connection_state_change (st : String) (s : ServerState) :
    ServerState :=
  if st = "connected" then
    { s with connected := true }
  else if st = "failed" then
    { s with pcClosed := true
             data_channel := s.data_channel.map (fun _ => "closed")
             connected := false }
  else s

/-- Server.start (src/server.py:99-109) suspends on connected.wait()
after the signaling exchange; the wait completes exactly when the
connected event is set. -/
def startWaitReleased (s : ServerState) : Bool :=
  s.connected

/-! ## Dual-transport client (src/client.py) -/

/-- The instance variables of Client.__init__ (src/client.py:18-24):
whether the HTTPS connection object is set, whether the WebSocket
("WebRTC") connection object is set, and the protocol flag. -/
structure ClientState where
  https_connection : Bool
  webrtc_connection : Bool
  is_webrtc_enabled : Bool
deriving DecidableEq, Repr

/-- The state right after Client.__init__. -/
def initClient : ClientState :=
  { https_connection := false, webrtc_connection := false
    is_webrtc_enabled := false }

/-- Client.connect_to_server (src/client.py:26-47), with the connection
attempts themselves assumed to succeed: when neither an HTTPS
connection is set nor the realtime flag, an HTTPS connection is
created; otherwise, when the realtime flag is still unset, a WebSocket
connection is created and the flag is set; in every other state the
method changes nothing. -/
def connect_to_server (s : ClientState) : ClientState :=
  if !s.https_connection && !s.is_webrtc_enabled then
    { s with https_connection := true }
  else if !s.is_webrtc_enabled then
    { s with webrtc_connection := true, is_webrtc_enabled := true }
  else s

/-- Client.toggle_protocol (src/client.py:320-337): with an HTTPS
connection set, close it and set the realtime flag; otherwise close the
WebSocket connection when one is set and clear the flag. -/
def toggle_protocol (s : ClientState) : ClientState :=
  if s.https_connection then
    { s with https_connection := false, is_webrtc_enabled := true }
  else
    { s with webrtc_connection := false, is_webrtc_enabled := false }

/-- One outbound action of the client: an HTTPS request or one WebSocket
text frame. -/
inductive ClientOut where
  | httpRequest (method path : String) (body : List Nat)
      (headers : List (String × String))
  | wsSend (j : JsonObj)
deriving DecidableEq, Repr

/-- Client.send_file (src/client.py:257-280), with content the bytes
read from the file at path: over HTTPS one POST /file request carrying
the raw bytes and a Filename header; over the realtime transport one
JSON frame with fields type="file", filename=basename(path) and
data=base64(content); with neither connection set, nothing. -/
def send_file (s : ClientState) (path : String) (content : List Nat) :
    List ClientOut :=
  if s.https_connection then
    [.httpRequest "POST" "/file" content
      [("Content-type", "application/octet-stream"),
       ("Filename", basename path)]]
  else if s.webrtc_connection then
    [.wsSend ⟨[("type", "file"), ("filename", basename path),
               ("data", b64encode content)]⟩]
  else []

/-- The environment one client receive operation runs against: whether
the HTTPS request raises, the HTTPS response body (JSON-bearing for
/text, raw bytes otherwise), the HTTPS response headers, and the queue
of frames pending on the WebSocket.  An exhausted queue makes recv
raise (connection closed). -/
structure RecvEnv where
  httpsFails : Bool
  httpsBody : WireMsg
  httpsRaw : List Nat
  httpsHeaders : List (String × String)
  wsQueue : List WireMsg
deriving Repr

/-- The WebSocket loop of Client.receive_text (src/client.py:188-195):
receive frames until one parses with type="text", returning its data
field; json.loads raises on a malformed frame, recv raises once the
queue is exhausted.  Errors carry the frames still pending. -/
def recvTextLoop :
    List WireMsg → Except (PyErr × List WireMsg) (Option String × List WireMsg)
  | [] => .error (.connectionClosed, [])
  | .malformed :: rest => .error (.jsonError, rest)
  | .json j :: rest =>
    if j.get "type" = some "text" then .ok (j.get "data", rest)
    else recvTextLoop rest

/-- The body of the try block of Client.receive_text
(src/client.py:173-198): over HTTPS, GET /text and return the parsed
body's text field; over the realtime transport, run the receive loop;
with neither connection, fall through and return None. -/
def receive_text_body (s : ClientState) (env : RecvEnv) :
    Except (PyErr × List WireMsg) (Option String × List WireMsg) :=
  if s.https_connection then
    if env.httpsFails then .error (.httpError, env.wsQueue)
    else
      match env.httpsBody with
      | .malformed => .error (.jsonError, env.wsQueue)
      | .json j => .ok (j.get "text", env.wsQueue)
  else if s.webrtc_connection then
    recvTextLoop env.wsQueue
  else .ok (none, env.wsQueue)

/-- Client.receive_text with its except-Exception handler: a raise
anywhere in the body is caught and the operation returns None. -/
def receive_text (s : ClientState) (env : RecvEnv) :
    Option String × List WireMsg :=
  match receive_text_body s env with
  | .ok r => r
  | .error (_, q) => (none, q)

/-- The WebSocket loop of Client.receive_audio (src/client.py:85-92):
like the text loop but decoding the data field with base64.b64decode,
which raises when the field is absent or not valid base64. -/
def recvAudioLoop :
    List WireMsg →
      Except (PyErr × List WireMsg) (Option (List Nat) × List WireMsg)
  | [] => .error (.connectionClosed, [])
  | .malformed :: rest => .error (.jsonError, rest)
  | .json j :: rest =>
    if j.get "type" = some "audio" then
      match j.get "data" with
      | none => .error (.typeError, rest)
      | some d =>
        match b64decode d with
        | .ok bytes => .ok (some bytes, rest)
        | .error e => .error (e, rest)
    else recvAudioLoop rest

/-- The body of the try block of Client.receive_audio
(src/client.py:71-95). -/
def receive_audio_body (s : ClientState) (env : RecvEnv) :
    Except (PyErr × List WireMsg) (Option (List Nat) × List WireMsg) :=
  if s.https_connection then
    if env.httpsFails then .error (.httpError, env.wsQueue)
    else .ok (some env.httpsRaw, env.wsQueue)
  else if s.webrtc_connection then
    recvAudioLoop env.wsQueue
  else .ok (none, env.wsQueue)

/-- Client.receive_audio with its except-Exception handler. -/
def receive_audio (s : ClientState) (env : RecvEnv) :
    Option (List Nat) × List WireMsg :=
  match receive_audio_body s env with
  | .ok r => r
  | .error (_, q) => (none, q)

/-- The WebSocket loop of Client.receive_video (src/client.py:138-146),
with imdecode the external cv2 JPEG decoder (out of scope per the
design, returning none rather than raising on undecodable input). -/
def recvVideoLoop {α : Type} (imdecode : List Nat → Option α) :
    List WireMsg → Except (PyErr × List WireMsg) (Option α × List WireMsg)
  | [] => .error (.connectionClosed, [])
  | .malformed :: rest => .error (.jsonError, rest)
  | .json j :: rest =>
    if j.get "type" = some "video" then
      match j.get "data" with
      | none => .error (.typeError, rest)
      | some d =>
        match b64decode d with
        | .ok bytes => .ok (imdecode bytes, rest)
        | .error e => .error (e, rest)
    else recvVideoLoop imdecode rest

/-- The body of the try block of Client.receive_video
(src/client.py:121-149). -/
def receive_video_body {α : Type} (imdecode : List Nat → Option α)
    (s : ClientState) (env : RecvEnv) :
    Except (PyErr × List WireMsg) (Option α × List WireMsg) :=
  if s.https_connection then
    if env.httpsFails then .error (.httpError, env.wsQueue)
    else .ok (imdecode env.httpsRaw, env.wsQueue)
  else if s.webrtc_connection then
    recvVideoLoop imdecode env.wsQueue
  else .ok (none, env.wsQueue)

/-- Client.receive_video with its except-Exception handler. -/
def receive_video {α : Type} (imdecode : List Nat → Option α)
    (s : ClientState) (env : RecvEnv) : Option α × List WireMsg :=
  match receive_video_body imdecode s env with
  | .ok r => r
  | .error (_, q) => (none, q)

/-- The WebSocket loop of Client.receive_image (src/client.py:244-252):
on a frame with type="image", base64-decode the data field, write the
bytes to save_path and return that path. -/
def recvImageLoop (save_path : String) (fs : Fs) :
    List WireMsg →
      Except (PyErr × List WireMsg × Fs) (Option String × List WireMsg × Fs)
  | [] => .error (.connectionClosed, [], fs)
  | .malformed :: rest => .error (.jsonError, rest, fs)
  | .json j :: rest =>
    if j.get "type" = some "image" then
      match j.get "data" with
      | none => .error (.typeError, rest, fs)
      | some d =>
        match b64decode d with
        | .ok bytes => .ok (some save_path, rest, fs.write save_path bytes)
        | .error e => .error (e, rest, fs)
    else recvImageLoop save_path fs rest

/-- The body of the try block of Client.receive_image
(src/client.py:224-255). -/
def receive_image_body (s : ClientState) (env : RecvEnv) (fs : Fs)
    (save_path : String) :
    Except (PyErr × List WireMsg × Fs) (Option String × List WireMsg × Fs) :=
  if s.https_connection then
    if env.httpsFails then .error (.httpError, env.wsQueue, fs)
    else .ok (some save_path, env.wsQueue, fs.write save_path env.httpsRaw)
  else if s.webrtc_connection then
    recvImageLoop save_path fs env.wsQueue
  else .ok (none, env.wsQueue, fs)

/-- Client.receive_image with its except-Exception handler. -/
def receive_image (s : ClientState) (env : RecvEnv) (fs : Fs)
    (save_path : String) : Option String × List WireMsg × Fs :=
  match receive_image_body s env fs save_path with
  | .ok r => r
  | .error (_, q, fs1) => (none, q, fs1)

/-- The WebSocket loop of Client.receive_file (src/client.py:304-315):
on a frame with type="file", base64-decode the data field, resolve the
name from the filename field (default "received_file"), write the bytes
under save_directory and return the joined path. -/
def recvFileLoop (save_directory : String) (fs : Fs) :
    List WireMsg →
      Except (PyErr × List WireMsg × Fs) (Option String × List WireMsg × Fs)
  | [] => .error (.connectionClosed, [], fs)
  | .malformed :: rest => .error (.jsonError, rest, fs)
  | .json j :: rest =>
    if j.get "type" = some "file" then
      match j.get "data" with
      | none => .error (.typeError, rest, fs)
      | some d =>
        match b64decode d with
        | .ok bytes =>
          let save_path := pathJoin save_directory
            (j.getD "filename" "received_file")
          .ok (some save_path, rest, fs.write save_path bytes)
        | .error e => .error (e, rest, fs)
    else recvFileLoop save_directory fs rest

/-- The body of the try block of Client.receive_file
(src/client.py:282-318); over HTTPS the name comes from the Filename
response header (default "received_file"). -/
def receive_file_body (s : ClientState) (env : RecvEnv) (fs : Fs)
    (save_directory : String) :
    Except (PyErr × List WireMsg × Fs) (Option String × List WireMsg × Fs) :=
  if s.https_connection then
    if env.httpsFails then .error (.httpError, env.wsQueue, fs)
    else
      let save_path := pathJoin save_directory
        ((env.httpsHeaders.lookup "Filename").getD "received_file")
      .ok (some save_path, env.wsQueue, fs.write save_path env.httpsRaw)
  else if s.webrtc_connection then
    recvFileLoop save_directory fs env.wsQueue
  else .ok (none, env.wsQueue, fs)

/-- Client.receive_file with its except-Exception handler. -/
def receive_file (s : ClientState) (env : RecvEnv) (fs : Fs)
    (save_directory : String) : Option String × List WireMsg × Fs :=
  match receive_file_body s env fs save_directory with
  | .ok r => r
  | .error (_, q, fs1) => (none, q, fs1)

/-! ## Lemmas on the server's file reception -/

/-- Handling one binary chunk while a reception is active appends it to
the buffer and changes nothing else. -/
lemma handleState_binary_active (s : ServerState) (b : List Nat)
    (h : s.receiving_file = true) :
    handleState s (.binary b) = { s with file_buffer := s.file_buffer ++ b } := by
  simp [handleState, handle_datachannel_message, h]

/-- Handling a run of binary chunks while a reception is active appends
their concatenation to the buffer and changes nothing else. -/
lemma runMessages_chunks (chunks : List (List Nat)) (s : ServerState)
    (h : s.receiving_file = true) :
    runMessages s (chunks.map .binary) =
      { s with file_buffer := s.file_buffer ++ chunks.flatten } := by
  induction chunks generalizing s with
  | nil => simp [runMessages]
  | cons c cs ih =>
    simp only [List.map_cons, runMessages, List.foldl_cons]
    rw [handleState_binary_active s c h]
    have := ih { s with file_buffer := s.file_buffer ++ c } (by simp [h])
    simp only [runMessages] at this
    rw [this]
    simp [List.append_assoc]

/-- Handling a file_start control frame resets the reception context:
target path from the filename field (default name otherwise), empty
buffer, active reception; the filesystem and channel are untouched. -/
lemma handleState_file_start (s : ServerState) (j : JsonObj)
    (hty : j.get "type" = some "file_start") :
    handleState s (.text (.json j)) =
      { s with
          received_file_path := j.getD "filename" "server_received_file.bin"
          file_buffer := []
          receiving_file := true } := by
  simp [handleState, handle_datachannel_message, hty]

/-- Handling a file_end control frame writes the whole buffer to the
target path in one operation and clears the active flag. -/
lemma handleState_file_end (s : ServerState) :
    handleState s fileEndMsg =
      { s with
          fs := s.fs.write s.received_file_path s.file_buffer
          receiving_file := false } := by
  simp [handleState, handle_datachannel_message, fileEndMsg, JsonObj.get]

/-- After a file_start frame, a run of chunks and a file_end frame, the
filesystem holds the chunks' concatenation at the resolved path, on top
of the previous filesystem. -/
lemma runMessages_file_sequence (s : ServerState) (j : JsonObj)
    (chunks : List (List Nat)) (hty : j.get "type" = some "file_start") :
    (runMessages s (.text (.json j) :: (chunks.map .binary ++ [fileEndMsg]))).fs =
      s.fs.write (j.getD "filename" "server_received_file.bin") chunks.flatten := by
  simp only [runMessages, List.foldl_cons, List.foldl_append]
  rw [show List.foldl handleState (handleState s (.text (.json j)))
        (chunks.map .binary) =
      runMessages (handleState s (.text (.json j))) (chunks.map .binary) from rfl]
  rw [handleState_file_start s j hty, runMessages_chunks _ _ (by simp)]
  simp [handleState_file_end]

/-- Claim C1: for every file reception sequence on the server consisting
of a file_start control frame, then N binary chunk frames (any N and any
chunk sizes), then a file_end control frame, handled in arrival order,
the artifact written at the resolved target path equals the byte
concatenation of the N chunks in send order. -/
theorem file_reassembly_writes_concat (s : ServerState) (j : JsonObj)
    (chunks : List (List Nat)) (hty : j.get "type" = some "file_start") :
    Fs.read
      (runMessages s (.text (.json j) :: (chunks.map .binary ++ [fileEndMsg]))).fs
      (j.getD "filename" "server_received_file.bin") = some chunks.flatten := by
  rw [runMessages_file_sequence s j chunks hty]
  simp [Fs.read, Fs.write]

/-- Witness for C1: a concrete reception of three chunks of uneven sizes
reassembles to their concatenation. -/
theorem file_reassembly_writes_concat_witness :
    Fs.read
      (runMessages initServer
        (.text (.json ⟨[("type", "file_start"), ("filename", "f.bin")]⟩) ::
          ([[1, 2], [], [3, 4, 5]].map DCMessage.binary ++ [fileEndMsg]))).fs
      "f.bin" = some [1, 2, 3, 4, 5] := by
  have h := file_reassembly_writes_concat initServer
    ⟨[("type", "file_start"), ("filename", "f.bin")]⟩ [[1, 2], [], [3, 4, 5]]
    (by decide)
  simpa using h

/-- Claim C4: for every server state with a file reception already
active and a non-empty buffer, a second file_start frame before any
file_end discards the prior buffer contents and restarts framing, so
the artifact eventually written reflects only the chunks received after
the second file_start. -/
theorem second_file_start_discards_buffer (s : ServerState)
    (hA : s.receiving_file = true) (hB : s.file_buffer ≠ [])
    (j2 : JsonObj) (chunks2 : List (List Nat))
    (hty : j2.get "type" = some "file_start") :
    (handleState s (.text (.json j2))).file_buffer = [] ∧
    Fs.read
      (runMessages s (.text (.json j2) :: (chunks2.map .binary ++ [fileEndMsg]))).fs
      (j2.getD "filename" "server_received_file.bin") = some chunks2.flatten := by
  refine ⟨?_, ?_⟩
  · rw [handleState_file_start s j2 hty]
  · rw [runMessages_file_sequence s j2 chunks2 hty]
    simp [Fs.read, Fs.write]

/-- Witness for C4: with three bytes already buffered, a second
file_start followed by one chunk and file_end writes only that chunk. -/
theorem second_file_start_discards_buffer_witness :
    (handleState
        { initServer with receiving_file := true, file_buffer := [9, 9, 9] }
        (.text (.json ⟨[("type", "file_start"), ("filename", "g.bin")]⟩))).file_buffer
      = [] ∧
    Fs.read
      (runMessages
        { initServer with receiving_file := true, file_buffer := [9, 9, 9] }
        (.text (.json ⟨[("type", "file_start"), ("filename", "g.bin")]⟩) ::
          ([[7, 8]].map DCMessage.binary ++ [fileEndMsg]))).fs
      "g.bin" = some [7, 8] := by
  have h := second_file_start_discards_buffer
    { initServer with receiving_file := true, file_buffer := [9, 9, 9] }
    rfl (by decide) ⟨[("type", "file_start"), ("filename", "g.bin")]⟩
    [[7, 8]] (by decide)
  simpa using h

/-- Claim C5: a binary frame handled while no file reception is active
is dropped with a warning: the state (buffer and filesystem included)
is unchanged, no frame is sent, and handling it never raises. -/
theorem inactive_binary_frame_dropped (s : ServerState) (b : List Nat)
    (h : s.receiving_file = false) :
    handle_datachannel_message s (.binary b) =
      .ok (s, { frames := [],
                warnings := ["Received binary data but not in file reception mode"] }) := by
  simp [handle_datachannel_message, h]

/-- Witness for C5: a concrete binary frame on the freshly initialized
server is dropped without touching the state. -/
theorem inactive_binary_frame_dropped_witness :
    handle_datachannel_message initServer (.binary [1, 2, 3]) =
      .ok (initServer,
        { frames := [],
          warnings := ["Received binary data but not in file reception mode"] }) :=
  inactive_binary_frame_dropped initServer [1, 2, 3] rfl

/-- Claim C6: send_text is a non-fatal no-op that logs a warning when no
data channel is open, and otherwise sends exactly one text frame
carrying the JSON object with fields type="text" and data=message. -/
theorem send_text_one_frame_or_noop (s : ServerState) (message : String) :
    (s.data_channel = some "open" →
      send_text s message =
        { frames := [.text ⟨[("type", "text"), ("data", message)]⟩]
          warnings := [] }) ∧
    (s.data_channel ≠ some "open" →
      send_text s message =
        { frames := [], warnings := ["Data channel is not open"] }) := by
  constructor
  · intro h
    simp [send_text, h]
  · intro h
    simp [send_text, h]

/-- Witness for C6: with an open channel, "hi" goes out as one framed
JSON text message; with no channel, nothing goes out. -/
theorem send_text_one_frame_or_noop_witness :
    send_text { initServer with data_channel := some "open" } "hi" =
      { frames := [.text ⟨[("type", "text"), ("data", "hi")]⟩]
        warnings := [] } ∧
    send_text initServer "hi" =
      { frames := [], warnings := ["Data channel is not open"] } :=
  ⟨(send_text_one_frame_or_noop
      { initServer with data_channel := some "open" } "hi").1 rfl,
   (send_text_one_frame_or_noop initServer "hi").2 (by decide)⟩

/-- Claim C8: received files are persisted with full-overwrite
semantics: file_start sets the target path to the frame's filename
field when present and to the default name otherwise, and file_end
writes the whole buffer to that path in one operation, shadowing any
previous content there. -/
theorem file_persistence_overwrite (s : ServerState) (j : JsonObj) :
    (j.get "type" = some "file_start" →
      (handleState s (.text (.json j))).received_file_path =
        (j.get "filename").getD "server_received_file.bin") ∧
    (handleState s fileEndMsg).fs =
      s.fs.write s.received_file_path s.file_buffer ∧
    Fs.read (handleState s fileEndMsg).fs s.received_file_path =
      some s.file_buffer := by
  refine ⟨?_, ?_, ?_⟩
  · intro hty
    rw [handleState_file_start s j hty]
    simp [JsonObj.getD]
  · rw [handleState_file_end]
  · rw [handleState_file_end]
    simp [Fs.read, Fs.write]

/-- Witness for C8: a file_start with a filename retargets the path, and
a file_end on a state whose path already holds other content overwrites
it with the buffer. -/
theorem file_persistence_overwrite_witness :
    (handleState initServer
        (.text (.json ⟨[("type", "file_start"), ("filename", "o.bin")]⟩))).received_file_path
      = "o.bin" ∧
    Fs.read
      (handleState
        { initServer with file_buffer := [5], fs := [("server_received_file.bin", [1])] }
        fileEndMsg).fs
      "server_received_file.bin" = some [5] := by
  refine ⟨?_, ?_⟩
  · have h := (file_persistence_overwrite initServer
      ⟨[("type", "file_start"), ("filename", "o.bin")]⟩).1 (by decide)
    simpa using h
  · have h := (file_persistence_overwrite
      { initServer with file_buffer := [5], fs := [("server_received_file.bin", [1])] }
      ⟨[]⟩).2.2
    simpa using h

/-- Counterexample to claim C3: on a session with an open channel whose
connected event is not yet set, a transport-reported "failed" leaves
the caller suspended in start() unreleased — connected.clear() never
wakes a connected.wait(), so the wait stays pending, contradicting the
claim that the waiter is released with a failure. -/
theorem failed_leaves_start_waiter_suspended :
    startWaitReleased
      (on_ice_connection_state_change "failed"
        { initServer with data_channel := some "open" }) = false := by
  decide

/-- Claim C3 (amended): when the transport engine reports "failed", the
session closes the peer connection immediately (tearing the data
channel down) and clears the connected event, so a caller suspended in
start() is not released at all (it remains suspended, with no failure
surfaced), and every subsequent send_text is a no-op sending no frame. -/
theorem failed_teardown_and_send_noop (s : ServerState) (message : String) :
    (on_ice_connection_state_change "failed" s).pcClosed = true ∧
    startWaitReleased (on_ice_connection_state_change "failed" s) = false ∧
    (send_text (on_ice_connection_state_change "failed" s) message).frames = [] := by
  refine ⟨?_, ?_, ?_⟩
  · simp [on_ice_connection_state_change]
  · simp [startWaitReleased, on_ice_connection_state_change]
  · cases h : s.data_channel with
    | none => simp [send_text, on_ice_connection_state_change, h]
    | some r => simp [send_text, on_ice_connection_state_change, h]

/-- Counterexample to claim C2: send_file for a 40000-byte file over the
realtime transport emits exactly one frame, not the three 16-KiB-chunked
binary frames bracketed by file_start and file_end that the claim
requires (which would be five frames). -/
theorem send_file_single_frame_not_chunked :
    (send_file
      { https_connection := false, webrtc_connection := true
        is_webrtc_enabled := true }
      "f.bin" (List.replicate 40000 0)).length = 1 := rfl

/-- Claim C2 (amended): for every file sent over the realtime transport,
send_file emits exactly one JSON frame with fields type="file",
filename=basename(path) and data=base64(content); it performs no
chunking and sends no file_start or file_end control frames. -/
theorem send_file_base64_envelope (s : ClientState) (path : String)
    (content : List Nat) (h1 : s.https_connection = false)
    (h2 : s.webrtc_connection = true) :
    send_file s path content =
      [.wsSend ⟨[("type", "file"), ("filename", basename path),
                 ("data", b64encode content)]⟩] := by
  simp [send_file, h1, h2]

/-- Witness for the amended C2: the two-byte file "hi" under path
"dir/f.bin" goes out as one envelope with base64 data "aGk=". -/
theorem send_file_base64_envelope_witness :
    send_file
      { https_connection := false, webrtc_connection := true
        is_webrtc_enabled := true }
      "dir/f.bin" [104, 105] =
      [.wsSend ⟨[("type", "file"), ("filename", "f.bin"),
                 ("data", "aGk=")]⟩] := by
  rw [send_file_base64_envelope _ _ _ rfl rfl]
  decide

/-- Counterexample to claim C7: calling connect_to_server twice from the
fresh client leaves both the request/response connection and the
realtime connection (and its flag) active at once, and after
toggle_protocol from the request/response transport the next
connect_to_server establishes neither transport — contradicting both
the mutual-exclusion invariant and the switch-over behavior the claim
states. -/
theorem dual_transport_claims_fail :
    (connect_to_server (connect_to_server initClient)).https_connection = true ∧
    (connect_to_server (connect_to_server initClient)).webrtc_connection = true ∧
    (connect_to_server (connect_to_server initClient)).is_webrtc_enabled = true ∧
    (connect_to_server (toggle_protocol (connect_to_server initClient))).https_connection
      = false ∧
    (connect_to_server (toggle_protocol (connect_to_server initClient))).webrtc_connection
      = false := by
  decide

/-- Claim C7 (amended): toggle_protocol closes whichever transport is
currently active and flips the flag, but only toggling away from the
realtime transport leads the next connect_to_server to establish the
other (request/response) transport; after toggling away from the
request/response transport the next connect_to_server establishes no
transport, and mutual exclusion does not hold in every reachable state
(a second connect_to_server while the request/response connection is
open also opens the realtime transport). -/
theorem toggle_protocol_behavior (s : ClientState) :
    (s.https_connection = true →
      (toggle_protocol s).https_connection = false ∧
      (toggle_protocol s).is_webrtc_enabled = true ∧
      connect_to_server (toggle_protocol s) = toggle_protocol s) ∧
    (s.https_connection = false →
      (toggle_protocol s).webrtc_connection = false ∧
      (toggle_protocol s).is_webrtc_enabled = false ∧
      (connect_to_server (toggle_protocol s)).https_connection = true) ∧
    ((connect_to_server (connect_to_server initClient)).https_connection = true ∧
     (connect_to_server (connect_to_server initClient)).webrtc_connection = true) := by
  refine ⟨?_, ?_, by decide⟩
  · intro h
    refine ⟨by simp [toggle_protocol, h], by simp [toggle_protocol, h], ?_⟩
    simp [toggle_protocol, connect_to_server, h]
  · intro h
    refine ⟨by simp [toggle_protocol, h], by simp [toggle_protocol, h], ?_⟩
    simp [toggle_protocol, connect_to_server, h]

/-- Witness for the amended C7: a client with only HTTPS active toggles
to a state a further connect does not change, and a client with only
the realtime transport active toggles to a state from which connect
re-establishes HTTPS. -/
theorem toggle_protocol_behavior_witness :
    (toggle_protocol
        { https_connection := true, webrtc_connection := false
          is_webrtc_enabled := false }).https_connection = false ∧
    connect_to_server
        (toggle_protocol
          { https_connection := true, webrtc_connection := false
            is_webrtc_enabled := false }) =
      toggle_protocol
        { https_connection := true, webrtc_connection := false
          is_webrtc_enabled := false } ∧
    (connect_to_server
        (toggle_protocol
          { https_connection := false, webrtc_connection := true
            is_webrtc_enabled := true })).https_connection = true :=
  ⟨((toggle_protocol_behavior
      { https_connection := true, webrtc_connection := false
        is_webrtc_enabled := false }).1 rfl).1,
   ((toggle_protocol_behavior
      { https_connection := true, webrtc_connection := false
        is_webrtc_enabled := false }).1 rfl).2.2,
   ((toggle_protocol_behavior
      { https_connection := false, webrtc_connection := true
        is_webrtc_enabled := true }).2.1 rfl).2.2⟩

/-- Claim C9: every client receive operation catches any exception
raised during it and returns None; no receive operation propagates an
exception to its caller.  Exceptions are the error results of the
operations' try-block bodies; each conjunct says the full operation
maps such an error to None (with the wire and filesystem state the
body had reached). -/
theorem receive_ops_never_raise {α : Type} (imdecode : List Nat → Option α)
    (s : ClientState) (env : RecvEnv) (fs : Fs)
    (save_path save_directory : String) :
    (∀ e q, receive_text_body s env = .error (e, q) →
      receive_text s env = (none, q)) ∧
    (∀ e q, receive_audio_body s env = .error (e, q) →
      receive_audio s env = (none, q)) ∧
    (∀ e q, receive_video_body imdecode s env = .error (e, q) →
      receive_video imdecode s env = (none, q)) ∧
    (∀ e q fs1, receive_image_body s env fs save_path = .error (e, q, fs1) →
      receive_image s env fs save_path = (none, q, fs1)) ∧
    (∀ e q fs1, receive_file_body s env fs save_directory = .error (e, q, fs1) →
      receive_file s env fs save_directory = (none, q, fs1)) := by
  refine ⟨?_, ?_, ?_, ?_, ?_⟩
  · intro e q h
    simp [receive_text, h]
  · intro e q h
    simp [receive_audio, h]
  · intro e q h
    simp [receive_video, h]
  · intro e q fs1 h
    simp [receive_image, h]
  · intro e q fs1 h
    simp [receive_file, h]

/-- Witness for C9: over the realtime transport, a malformed frame makes
every receive operation's body raise through json.loads, and each
operation returns None. -/
theorem receive_ops_never_raise_witness :
    receive_text
      { https_connection := false, webrtc_connection := true
        is_webrtc_enabled := true }
      { httpsFails := false, httpsBody := .malformed, httpsRaw := []
        httpsHeaders := [], wsQueue := [.malformed] } = (none, []) ∧
    receive_audio
      { https_connection := false, webrtc_connection := true
        is_webrtc_enabled := true }
      { httpsFails := false, httpsBody := .malformed, httpsRaw := []
        httpsHeaders := [], wsQueue := [.malformed] } = (none, []) ∧
    receive_video (fun b => some b)
      { https_connection := false, webrtc_connection := true
        is_webrtc_enabled := true }
      { httpsFails := false, httpsBody := .malformed, httpsRaw := []
        httpsHeaders := [], wsQueue := [.malformed] } = (none, []) ∧
    receive_image
      { https_connection := false, webrtc_connection := true
        is_webrtc_enabled := true }
      { httpsFails := false, httpsBody := .malformed, httpsRaw := []
        httpsHeaders := [], wsQueue := [.malformed] } [] "p.jpg" = (none, [], []) ∧
    receive_file
      { https_connection := false, webrtc_connection := true
        is_webrtc_enabled := true }
      { httpsFails := false, httpsBody := .malformed, httpsRaw := []
        httpsHeaders := [], wsQueue := [.malformed] } [] "d" = (none, [], []) := by
  have h := receive_ops_never_raise (fun b : List Nat => some b)
    { https_connection := false, webrtc_connection := true
      is_webrtc_enabled := true }
    { httpsFails := false, httpsBody := .malformed, httpsRaw := []
      httpsHeaders := [], wsQueue := [.malformed] } [] "p.jpg" "d"
  exact ⟨h.1 _ _ rfl, h.2.1 _ _ rfl, h.2.2.1 _ _ rfl,
    h.2.2.2.1 _ _ _ rfl, h.2.2.2.2 _ _ _ rfl⟩

/-- Frames whose type field is not "text" are skipped by the text
receive loop and permanently consumed. -/
lemma recvTextLoop_skip (pre rest : List WireMsg)
    (hpre : ∀ m ∈ pre, ∃ jm, m = WireMsg.json jm ∧ jm.get "type" ≠ some "text") :
    recvTextLoop (pre ++ rest) = recvTextLoop rest := by
  induction pre with
  | nil => rfl
  | cons m ms ih =>
    obtain ⟨jm, rfl, hne⟩ := hpre m (List.mem_cons_self m ms)
    simp only [List.cons_append, recvTextLoop, if_neg hne]
    exact ih (fun m hm => hpre m (List.mem_cons_of_mem _ hm))

/-- Frames whose type field is not "audio" are skipped by the audio
receive loop and permanently consumed. -/
lemma recvAudioLoop_skip (pre rest : List WireMsg)
    (hpre : ∀ m ∈ pre, ∃ jm, m = WireMsg.json jm ∧ jm.get "type" ≠ some "audio") :
    recvAudioLoop (pre ++ rest) = recvAudioLoop rest := by
  induction pre with
  | nil => rfl
  | cons m ms ih =>
    obtain ⟨jm, rfl, hne⟩ := hpre m (List.mem_cons_self m ms)
    simp only [List.cons_append, recvAudioLoop, if_neg hne]
    exact ih (fun m hm => hpre m (List.mem_cons_of_mem _ hm))

/-- Frames whose type field is not "video" are skipped by the video
receive loop and permanently consumed. -/
lemma recvVideoLoop_skip {α : Type} (imdecode : List Nat → Option α)
    (pre rest : List WireMsg)
    (hpre : ∀ m ∈ pre, ∃ jm, m = WireMsg.json jm ∧ jm.get "type" ≠ some "video") :
    recvVideoLoop imdecode (pre ++ rest) = recvVideoLoop imdecode rest := by
  induction pre with
  | nil => rfl
  | cons m ms ih =>
    obtain ⟨jm, rfl, hne⟩ := hpre m (List.mem_cons_self m ms)
    simp only [List.cons_append, recvVideoLoop, if_neg hne]
    exact ih (fun m hm => hpre m (List.mem_cons_of_mem _ hm))

/-- Frames whose type field is not "image" are skipped by the image
receive loop and permanently consumed. -/
lemma recvImageLoop_skip (save_path : String) (fs : Fs)
    (pre rest : List WireMsg)
    (hpre : ∀ m ∈ pre, ∃ jm, m = WireMsg.json jm ∧ jm.get "type" ≠ some "image") :
    recvImageLoop save_path fs (pre ++ rest) = recvImageLoop save_path fs rest := by
  induction pre with
  | nil => rfl
  | cons m ms ih =>
    obtain ⟨jm, rfl, hne⟩ := hpre m (List.mem_cons_self m ms)
    simp only [List.cons_append, recvImageLoop, if_neg hne]
    exact ih (fun m hm => hpre m (List.mem_cons_of_mem _ hm))

/-- Frames whose type field is not "file" are skipped by the file
receive loop and permanently consumed. -/
lemma recvFileLoop_skip (save_directory : String) (fs : Fs)
    (pre rest : List WireMsg)
    (hpre : ∀ m ∈ pre, ∃ jm, m = WireMsg.json jm ∧ jm.get "type" ≠ some "file") :
    recvFileLoop save_directory fs (pre ++ rest) =
      recvFileLoop save_directory fs rest := by
  induction pre with
  | nil => rfl
  | cons m ms ih =>
    obtain ⟨jm, rfl, hne⟩ := hpre m (List.mem_cons_self m ms)
    simp only [List.cons_append, recvFileLoop, if_neg hne]
    exact ih (fun m hm => hpre m (List.mem_cons_of_mem _ hm))

/-- Claim C10: over the realtime transport, each receive operation
(receive_text, receive_audio, receive_video, receive_image,
receive_file) reads frames from the connection, permanently discards
every JSON frame whose type field differs from the wanted one, and
returns the decoded payload of the first frame whose type matches —
for text the data field itself, for audio and video its base64-decoded
bytes (video through the external decoder), and for image and file the
save path after writing the decoded bytes there; the discarded frames
are consumed and only the frames after the match remain for later
receive operations. -/
theorem receive_loop_discards_other_types {α : Type}
    (imdecode : List Nat → Option α) (s : ClientState) (env : RecvEnv)
    (fs : Fs) (save_path save_directory : String)
    (pre post : List WireMsg) (j : JsonObj)
    (h1 : s.https_connection = false) (h2 : s.webrtc_connection = true) :
    ((∀ m ∈ pre, ∃ jm, m = WireMsg.json jm ∧ jm.get "type" ≠ some "text") →
      j.get "type" = some "text" →
      ∀ t, j.get "data" = some t →
      receive_text s { env with wsQueue := pre ++ .json j :: post } =
        (some t, post)) ∧
    ((∀ m ∈ pre, ∃ jm, m = WireMsg.json jm ∧ jm.get "type" ≠ some "audio") →
      j.get "type" = some "audio" →
      ∀ d bytes, j.get "data" = some d → b64decode d = .ok bytes →
      receive_audio s { env with wsQueue := pre ++ .json j :: post } =
        (some bytes, post)) ∧
    ((∀ m ∈ pre, ∃ jm, m = WireMsg.json jm ∧ jm.get "type" ≠ some "video") →
      j.get "type" = some "video" →
      ∀ d bytes, j.get "data" = some d → b64decode d = .ok bytes →
      receive_video imdecode s { env with wsQueue := pre ++ .json j :: post } =
        (imdecode bytes, post)) ∧
    ((∀ m ∈ pre, ∃ jm, m = WireMsg.json jm ∧ jm.get "type" ≠ some "image") →
      j.get "type" = some "image" →
      ∀ d bytes, j.get "data" = some d → b64decode d = .ok bytes →
      receive_image s { env with wsQueue := pre ++ .json j :: post } fs save_path =
        (some save_path, post, fs.write save_path bytes)) ∧
    ((∀ m ∈ pre, ∃ jm, m = WireMsg.json jm ∧ jm.get "type" ≠ some "file") →
      j.get "type" = some "file" →
      ∀ d bytes, j.get "data" = some d → b64decode d = .ok bytes →
      receive_file s { env with wsQueue := pre ++ .json j :: post } fs
          save_directory =
        (some (pathJoin save_directory (j.getD "filename" "received_file")),
         post,
         fs.write (pathJoin save_directory (j.getD "filename" "received_file"))
           bytes)) := by
  refine ⟨?_, ?_, ?_, ?_, ?_⟩
  · intro hpre hty t hdata
    simp only [receive_text, receive_text_body, h1, h2, Bool.false_eq_true,
      if_false, if_true]
    rw [recvTextLoop_skip pre _ hpre]
    simp [recvTextLoop, hty, hdata]
  · intro hpre hty d bytes hdata hdec
    simp only [receive_audio, receive_audio_body, h1, h2, Bool.false_eq_true,
      if_false, if_true]
    rw [recvAudioLoop_skip pre _ hpre]
    simp [recvAudioLoop, hty, hdata, hdec]
  · intro hpre hty d bytes hdata hdec
    simp only [receive_video, receive_video_body, h1, h2, Bool.false_eq_true,
      if_false, if_true]
    rw [recvVideoLoop_skip imdecode pre _ hpre]
    simp [recvVideoLoop, hty, hdata, hdec]
  · intro hpre hty d bytes hdata hdec
    simp only [receive_image, receive_image_body, h1, h2, Bool.false_eq_true,
      if_false, if_true]
    rw [recvImageLoop_skip save_path fs pre _ hpre]
    simp [recvImageLoop, hty, hdata, hdec]
  · intro hpre hty d bytes hdata hdec
    simp only [receive_file, receive_file_body, h1, h2, Bool.false_eq_true,
      if_false, if_true]
    rw [recvFileLoop_skip save_directory fs pre _ hpre]
    simp [recvFileLoop, hty, hdata, hdec]

/-- Witness for C10: for each of the five receive operations, frames of
other types ahead of the matching frame are discarded, the decoded
payload of the matching frame is returned (written under the save path
for image and file), and only the frames behind it remain queued. -/
theorem receive_loop_discards_other_types_witness :
    receive_text
      { https_connection := false, webrtc_connection := true
        is_webrtc_enabled := true }
      { httpsFails := false, httpsBody := .malformed, httpsRaw := []
        httpsHeaders := []
        wsQueue :=
          [.json ⟨[("type", "audio"), ("data", "aGk=")]⟩,
           .json ⟨[("type", "video"), ("data", "aGk=")]⟩] ++
            .json ⟨[("type", "text"), ("data", "hello")]⟩ ::
              [.json ⟨[("type", "text"), ("data", "later")]⟩] } =
      (some "hello", [.json ⟨[("type", "text"), ("data", "later")]⟩]) ∧
    receive_audio
      { https_connection := false, webrtc_connection := true
        is_webrtc_enabled := true }
      { httpsFails := false, httpsBody := .malformed, httpsRaw := []
        httpsHeaders := []
        wsQueue :=
          [.json ⟨[("type", "text"), ("data", "hello")]⟩] ++
            .json ⟨[("type", "audio"), ("data", "aGk=")]⟩ :: [] } =
      (some [104, 105], []) ∧
    receive_video (fun b => some b)
      { https_connection := false, webrtc_connection := true
        is_webrtc_enabled := true }
      { httpsFails := false, httpsBody := .malformed, httpsRaw := []
        httpsHeaders := []
        wsQueue :=
          [.json ⟨[("type", "text"), ("data", "hello")]⟩] ++
            .json ⟨[("type", "video"), ("data", "aGk=")]⟩ :: [] } =
      (some [104, 105], []) ∧
    receive_image
      { https_connection := false, webrtc_connection := true
        is_webrtc_enabled := true }
      { httpsFails := false, httpsBody := .malformed, httpsRaw := []
        httpsHeaders := []
        wsQueue :=
          [.json ⟨[("type", "text"), ("data", "hello")]⟩] ++
            .json ⟨[("type", "image"), ("data", "aGk=")]⟩ :: [] }
      [] "p.jpg" =
      (some "p.jpg", [], [("p.jpg", [104, 105])]) ∧
    receive_file
      { https_connection := false, webrtc_connection := true
        is_webrtc_enabled := true }
      { httpsFails := false, httpsBody := .malformed, httpsRaw := []
        httpsHeaders := []
        wsQueue :=
          [.json ⟨[("type", "text"), ("data", "hello")]⟩] ++
            .json ⟨[("type", "file"), ("filename", "r.bin"),
                    ("data", "aGk=")]⟩ :: [] }
      [] "d" =
      (some "d/r.bin", [], [("d/r.bin", [104, 105])]) := by
  have hskip :
      ∀ m ∈ [WireMsg.json ⟨[("type", "text"), ("data", "hello")]⟩],
        ∃ jm, m = WireMsg.json jm ∧ jm.get "type" ≠ some "audio" := by
    intro m hm
    simp only [List.mem_singleton] at hm
    subst hm
    exact ⟨_, rfl, by decide⟩
  have hskipV :
      ∀ m ∈ [WireMsg.json ⟨[("type", "text"), ("data", "hello")]⟩],
        ∃ jm, m = WireMsg.json jm ∧ jm.get "type" ≠ some "video" := by
    intro m hm
    simp only [List.mem_singleton] at hm
    subst hm
    exact ⟨_, rfl, by decide⟩
  have hskipI :
      ∀ m ∈ [WireMsg.json ⟨[("type", "text"), ("data", "hello")]⟩],
        ∃ jm, m = WireMsg.json jm ∧ jm.get "type" ≠ some "image" := by
    intro m hm
    simp only [List.mem_singleton] at hm
    subst hm
    exact ⟨_, rfl, by decide⟩
  have hskipF :
      ∀ m ∈ [WireMsg.json ⟨[("type", "text"), ("data", "hello")]⟩],
        ∃ jm, m = WireMsg.json jm ∧ jm.get "type" ≠ some "file" := by
    intro m hm
    simp only [List.mem_singleton] at hm
    subst hm
    exact ⟨_, rfl, by decide⟩
  refine ⟨?_, ?_, ?_, ?_, ?_⟩
  · refine (receive_loop_discards_other_types (fun b : List Nat => some b)
      { https_connection := false, webrtc_connection := true
        is_webrtc_enabled := true }
      { httpsFails := false, httpsBody := .malformed, httpsRaw := []
        httpsHeaders := []
        wsQueue :=
          [.json ⟨[("type", "audio"), ("data", "aGk=")]⟩,
           .json ⟨[("type", "video"), ("data", "aGk=")]⟩] ++
            .json ⟨[("type", "text"), ("data", "hello")]⟩ ::
              [.json ⟨[("type", "text"), ("data", "later")]⟩] }
      [] "p.jpg" "d"
      [.json ⟨[("type", "audio"), ("data", "aGk=")]⟩,
       .json ⟨[("type", "video"), ("data", "aGk=")]⟩]
      [.json ⟨[("type", "text"), ("data", "later")]⟩]
      ⟨[("type", "text"), ("data", "hello")]⟩ rfl rfl).1
      ?_ (by decide) "hello" (by decide)
    intro m hm
    simp only [List.mem_cons, List.mem_singleton] at hm
    rcases hm with rfl | rfl | hm
    · exact ⟨_, rfl, by decide⟩
    · exact ⟨_, rfl, by decide⟩
    · simp at hm
  · exact (receive_loop_discards_other_types (fun b : List Nat => some b)
      { https_connection := false, webrtc_connection := true
        is_webrtc_enabled := true }
      { httpsFails := false, httpsBody := .malformed, httpsRaw := []
        httpsHeaders := []
        wsQueue :=
          [.json ⟨[("type", "text"), ("data", "hello")]⟩] ++
            .json ⟨[("type", "audio"), ("data", "aGk=")]⟩ :: [] }
      [] "p.jpg" "d"
      [.json ⟨[("type", "text"), ("data", "hello")]⟩] []
      ⟨[("type", "audio"), ("data", "aGk=")]⟩ rfl rfl).2.1
      hskip (by decide) "aGk=" [104, 105] (by decide) rfl
  · exact (receive_loop_discards_other_types (fun b : List Nat => some b)
      { https_connection := false, webrtc_connection := true
        is_webrtc_enabled := true }
      { httpsFails := false, httpsBody := .malformed, httpsRaw := []
        httpsHeaders := []
        wsQueue :=
          [.json ⟨[("type", "text"), ("data", "hello")]⟩] ++
            .json ⟨[("type", "video"), ("data", "aGk=")]⟩ :: [] }
      [] "p.jpg" "d"
      [.json ⟨[("type", "text"), ("data", "hello")]⟩] []
      ⟨[("type", "video"), ("data", "aGk=")]⟩ rfl rfl).2.2.1
      hskipV (by decide) "aGk=" [104, 105] (by decide) rfl
  · exact (receive_loop_discards_other_types (fun b : List Nat => some b)
      { https_connection := false, webrtc_connection := true
        is_webrtc_enabled := true }
      { httpsFails := false, httpsBody := .malformed, httpsRaw := []
        httpsHeaders := []
        wsQueue :=
          [.json ⟨[("type", "text"), ("data", "hello")]⟩] ++
            .json ⟨[("type", "image"), ("data", "aGk=")]⟩ :: [] }
      [] "p.jpg" "d"
      [.json ⟨[("type", "text"), ("data", "hello")]⟩] []
      ⟨[("type", "image"), ("data", "aGk=")]⟩ rfl rfl).2.2.2.1
      hskipI (by decide) "aGk=" [104, 105] (by decide) rfl
  · have hfile := (receive_loop_discards_other_types (fun b : List Nat => some b)
      { https_connection := false, webrtc_connection := true
        is_webrtc_enabled := true }
      { httpsFails := false, httpsBody := .malformed, httpsRaw := []
        httpsHeaders := []
        wsQueue :=
          [.json ⟨[("type", "text"), ("data", "hello")]⟩] ++
            .json ⟨[("type", "file"), ("filename", "r.bin"),
                    ("data", "aGk=")]⟩ :: [] }
      [] "d" "d"
      [.json ⟨[("type", "text"), ("data", "hello")]⟩] []
      ⟨[("type", "file"), ("filename", "r.bin"), ("data", "aGk=")]⟩
      rfl rfl).2.2.2.2
      hskipF (by decide) "aGk=" [104, 105] (by decide) rfl
    rw [hfile]
    rfl

end Transceiver
